import Mathlib

/-!
Verification of the TradeView analytics engine (src/app.py).

The code is embedded shallowly:
* the Close column of a price frame is a list of exact rationals
  (floating-point arithmetic is idealised as exact arithmetic on ℚ);
* pandas/NumPy NaN propagation is modelled with Option (none = NaN);
* dates are modelled as natural day numbers (one unit = one calendar day).
-/

namespace TradeView

/-- Trailing window of width w ending at index i: the last w elements among
the first i+1 elements of the series.  This is the content of a pandas
rolling(window=w) window at row i. -/
def windowSlice (w : ℕ) (xs : List ℚ) (i : ℕ) : List ℚ :=
  (xs.take (i + 1)).drop (i + 1 - w)

/-- Embedding of Series.rolling(window=w).mean() at row i (src/app.py lines
107-110, 116-117).  With the default min_periods the result is NaN (none)
until the window is full, i.e. for i < w-1; otherwise it is the arithmetic
mean of the trailing w values. -/
def rollingMean (w : ℕ) (xs : List ℚ) (i : ℕ) : Option ℚ :=
  if w ≤ i + 1 ∧ i < xs.length then
    some ((windowSlice w xs i).sum / (w : ℚ))
  else none

/-- Spec-side definition, following the words of the spec (section 8):
the exact arithmetic mean of the 50 closes S.close[i-49..i]. -/
def specMean50 (xs : List ℚ) (i : ℕ) : ℚ :=
  ((List.range 50).map (fun j => xs.getD (i - 49 + j) 0)).sum / 50

lemma windowSlice_eq_map (w : ℕ) (xs : List ℚ) (i : ℕ)
    (hw : w ≤ i + 1) (hi : i < xs.length) :
    windowSlice w xs i = (List.range w).map (fun j => xs.getD (i + 1 - w + j) 0) := by
  apply List.ext_getElem
  · simp [windowSlice]
    omega
  · intro j h1 h2
    have hjw : j < w := by simpa using h2
    have hlt : i + 1 - w + j < xs.length := by omega
    simp only [windowSlice, List.getElem_drop, List.getElem_take, List.getElem_map,
      List.getElem_range]
    rw [List.getD_eq_getElem xs 0 hlt]

/-- C5: the SMA-50 column (df.Close.rolling(window=50).mean(), src/app.py
line 107) is null for the first 49 positions and from position 49 on equals
the exact arithmetic mean of the trailing 50 closes. -/
theorem c5_sma50_window (xs : List ℚ) (h50 : 50 ≤ xs.length)
    (i : ℕ) (hi : i < xs.length) :
    (i < 49 → rollingMean 50 xs i = none) ∧
    (49 ≤ i → rollingMean 50 xs i = some (specMean50 xs i)) := by
  constructor
  · intro h49
    simp only [rollingMean, windowSlice]
    rw [if_neg]
    omega
  · intro h49
    have hw : 50 ≤ i + 1 := by omega
    simp only [rollingMean, if_pos (And.intro hw hi)]
    rw [windowSlice_eq_map 50 xs i hw hi]
    have harith : i + 1 - 50 = i - 49 := by omega
    simp only [harith, specMean50]
    norm_num

/-- Witness for C5 at a concrete 50-bar series. -/
theorem c5_sma50_window_witness :
    50 ≤ (List.replicate 50 (1 : ℚ)).length ∧
    49 < (List.replicate 50 (1 : ℚ)).length ∧
    rollingMean 50 (List.replicate 50 (1 : ℚ)) 49 =
      some (specMean50 (List.replicate 50 (1 : ℚ)) 49) :=
  ⟨by decide, by decide,
    (c5_sma50_window (List.replicate 50 (1 : ℚ)) (by decide) 49 (by decide)).2
      (by decide)⟩

/-! RSI pipeline, src/app.py lines 115-119:
delta = df.Close.diff()
gain  = (delta.where(delta > 0, 0)).rolling(window=14).mean()
loss  = (-delta.where(delta < 0, 0)).rolling(window=14).mean()
rs    = gain / loss
RSI   = 100 - (100 / (1 + rs))
-/

/-- Embedding of df.Close.diff(): none (NaN) at position 0, the one-step
difference afterwards. -/
def deltas (xs : List ℚ) : List (Option ℚ) :=
  (List.range xs.length).map
    (fun i => if i = 0 then none else some (xs.getD i 0 - xs.getD (i - 1) 0))

/-- Embedding of delta.where(delta > 0, 0): where the condition is false the
value is replaced by 0, and the comparison NaN > 0 is false, so the NaN at
position 0 becomes 0 as well.  Every entry is therefore defined. -/
def gains (xs : List ℚ) : List ℚ :=
  (deltas xs).map (fun d =>
    match d with
    | none => 0
    | some v => if 0 < v then v else 0)

/-- Embedding of -delta.where(delta < 0, 0): the condition keeps the negative
deltas, everything else (including the NaN at position 0, since NaN < 0 is
false) becomes 0, and the whole series is negated. -/
def losses (xs : List ℚ) : List ℚ :=
  (deltas xs).map (fun d =>
    match d with
    | none => 0
    | some v => -(if v < 0 then v else 0))

/-- Embedding of rs = gain/loss and RSI = 100 - 100/(1 + rs) at row i, with
IEEE-754 division semantics for the nonnegative rolling means g and l:
l > 0 gives a finite quotient, g/0 with g > 0 gives +inf (so 100/(1+rs) = 0
and RSI = 100), and 0/0 gives NaN, which propagates to a NaN RSI (none). -/
def rsiAt (xs : List ℚ) (i : ℕ) : Option ℚ :=
  match rollingMean 14 (gains xs) i, rollingMean 14 (losses xs) i with
  | some g, some l =>
      if l = 0 then (if g = 0 then none else some 100)
      else some (100 - 100 / (1 + g / l))
  | _, _ => none

lemma gains_length (xs : List ℚ) : (gains xs).length = xs.length := by
  simp [gains, deltas]

lemma losses_length (xs : List ℚ) : (losses xs).length = xs.length := by
  simp [losses, deltas]

lemma gains_nonneg (xs : List ℚ) : ∀ v ∈ gains xs, 0 ≤ v := by
  intro v hv
  simp only [gains, List.mem_map] at hv
  obtain ⟨d, _, hd⟩ := hv
  cases d with
  | none =>
      rw [← hd]
  | some x =>
      rw [← hd]
      by_cases hx : 0 < x
      · simp only [if_pos hx]
        linarith
      · simp only [if_neg hx]
        norm_num

lemma losses_nonneg (xs : List ℚ) : ∀ v ∈ losses xs, 0 ≤ v := by
  intro v hv
  simp only [losses, List.mem_map] at hv
  obtain ⟨d, _, hd⟩ := hv
  cases d with
  | none =>
      rw [← hd]
  | some x =>
      rw [← hd]
      by_cases hx : x < 0
      · simp only [if_pos hx]
        linarith
      · simp only [if_neg hx]
        norm_num

lemma windowSlice_subset (w : ℕ) (xs : List ℚ) (i : ℕ) :
    windowSlice w xs i ⊆ xs := by
  intro v hv
  exact List.take_subset (i + 1) xs (List.drop_subset _ _ hv)

lemma rollingMean_nonneg {w : ℕ} {xs : List ℚ} {i : ℕ} {m : ℚ}
    (hxs : ∀ v ∈ xs, 0 ≤ v) (h : rollingMean w xs i = some m) : 0 ≤ m := by
  simp only [rollingMean] at h
  split at h
  · have hm : m = (windowSlice w xs i).sum / (w : ℚ) := by
      cases h
      rfl
    have hsum : 0 ≤ (windowSlice w xs i).sum :=
      List.sum_nonneg (fun v hv => hxs v (windowSlice_subset w xs i hv))
    rw [hm]
    positivity
  · cases h

lemma rollingMean_isSome {w : ℕ} {xs : List ℚ} {i : ℕ}
    (hw : w ≤ i + 1) (hi : i < xs.length) :
    ∃ m, rollingMean w xs i = some m := by
  simp only [rollingMean, if_pos (And.intro hw hi)]
  exact ⟨_, rfl⟩

/-- C1 (amended): every non-null RSI value lies in [0,100]; and when the
trailing average loss is 0, the RSI is exactly 100 when the average gain is
positive, but NaN (null), not 100, when the average gain is also 0 (a flat
14-bar window gives rs = 0/0 = NaN). -/
theorem c1_rsi_bounds_and_zero_loss (xs : List ℚ) (i : ℕ) :
    (∀ v, rsiAt xs i = some v → 0 ≤ v ∧ v ≤ 100) ∧
    (∀ g, rollingMean 14 (gains xs) i = some g →
      rollingMean 14 (losses xs) i = some 0 →
      rsiAt xs i = if g = 0 then none else some 100) := by
  constructor
  · intro v hv
    cases hg : rollingMean 14 (gains xs) i with
    | none => simp [rsiAt, hg] at hv
    | some g =>
      cases hl : rollingMean 14 (losses xs) i with
      | none => simp [rsiAt, hg, hl] at hv
      | some l =>
        simp only [rsiAt, hg, hl] at hv
        have hg0 : 0 ≤ g := rollingMean_nonneg (gains_nonneg xs) hg
        have hl0 : 0 ≤ l := rollingMean_nonneg (losses_nonneg xs) hl
        by_cases hlz : l = 0
        · rw [if_pos hlz] at hv
          by_cases hgz : g = 0
          · rw [if_pos hgz] at hv; cases hv
          · rw [if_neg hgz] at hv
            cases hv
            norm_num
        · rw [if_neg hlz] at hv
          have hlpos : 0 < l := lt_of_le_of_ne hl0 (Ne.symm hlz)
          have hrs : 0 ≤ g / l := div_nonneg hg0 (le_of_lt hlpos)
          have hv' : v = 100 - 100 / (1 + g / l) := by
            cases hv
            rfl
          have hb1 : 0 < 1 + g / l := by linarith
          have hdivpos : 0 ≤ 100 / (1 + g / l) :=
            div_nonneg (by norm_num) (le_of_lt hb1)
          have hdivle : 100 / (1 + g / l) ≤ 100 :=
            div_le_self (by norm_num) (by linarith)
          constructor <;> [linarith; linarith]
  · intro g hg hl
    simp [rsiAt, hg, hl]

/-- Strictly increasing 15-bar close series. -/
def up15 : List ℚ := [1, 2, 3, 4, 5, 6, 7, 8, 9, 10, 11, 12, 13, 14, 15]

/-- Flat 15-bar close series: every close equals 10. -/
def flat15 : List ℚ := [10, 10, 10, 10, 10, 10, 10, 10, 10, 10, 10, 10, 10, 10, 10]

/-- Witness for C1 at the strictly increasing 15-bar series 1,2,...,15:
the average loss at row 13 is 0, the average gain is 13/14 > 0, and the RSI
is exactly 100. -/
theorem c1_rsi_bounds_and_zero_loss_witness :
    rollingMean 14 (gains up15) 13 = some (13 / 14) ∧
    rollingMean 14 (losses up15) 13 = some 0 ∧
    rsiAt up15 13 = (if (13 / 14 : ℚ) = 0 then none else some 100) :=
  ⟨by norm_num [rollingMean, windowSlice, gains, losses, deltas, up15, List.range_succ],
   by norm_num [rollingMean, windowSlice, gains, losses, deltas, up15, List.range_succ],
   (c1_rsi_bounds_and_zero_loss up15 13).2 (13 / 14)
     (by norm_num [rollingMean, windowSlice, gains, losses, deltas, up15, List.range_succ])
     (by norm_num [rollingMean, windowSlice, gains, losses, deltas, up15, List.range_succ])⟩

/-- Counterexample for C1 as stated: on the flat 15-bar series (all closes
equal to 10) the trailing average loss at row 13 is 0, yet the RSI there is
NaN (none), not 100. -/
theorem c1_counterexample :
    rollingMean 14 (losses flat15) 13 = some 0 ∧
    rsiAt flat15 13 = none ∧
    rsiAt flat15 13 ≠ some 100 := by
  have h : rsiAt flat15 13 = none := by
    norm_num [rsiAt, rollingMean, windowSlice, gains, losses, deltas, flat15,
      List.range_succ]
  refine ⟨?_, h, ?_⟩
  · norm_num [rollingMean, windowSlice, gains, losses, deltas, flat15,
      List.range_succ]
  · rw [h]
    simp

/-- C2 (amended): the RSI column is null at exactly the first 13 positions
(indices 0..12): because delta.where(delta > 0, 0) turns the undefined delta
at position 0 into the value 0, the 14-bar rolling means are already defined
at index 13.  From index 13 on, the RSI is null exactly when the trailing
window is flat (average gain and average loss both 0, giving rs = 0/0 = NaN). -/
theorem c2_rsi_null_warmup (xs : List ℚ) (i : ℕ) (hi : i < xs.length) :
    (i < 13 → rsiAt xs i = none) ∧
    (13 ≤ i → (rsiAt xs i = none ↔
      rollingMean 14 (gains xs) i = some 0 ∧
      rollingMean 14 (losses xs) i = some 0)) := by
  constructor
  · intro h13
    have hg : rollingMean 14 (gains xs) i = none := by
      simp only [rollingMean]
      rw [if_neg]
      rintro ⟨h1, _⟩
      omega
    simp [rsiAt, hg]
  · intro h13
    obtain ⟨g, hg⟩ :=
      rollingMean_isSome (w := 14) (by omega) ((gains_length xs).symm ▸ hi)
    obtain ⟨l, hl⟩ :=
      rollingMean_isSome (w := 14) (by omega) ((losses_length xs).symm ▸ hi)
    simp only [rsiAt, hg, hl, Option.some.injEq]
    constructor
    · intro hnone
      by_cases hlz : l = 0
      · by_cases hgz : g = 0
        · exact ⟨hgz, hlz⟩
        · rw [if_pos hlz, if_neg hgz] at hnone
          cases hnone
      · rw [if_neg hlz] at hnone
        cases hnone
    · rintro ⟨hgz, hlz⟩
      rw [if_pos hlz, if_pos hgz]

/-- Alternating 15-bar close series 10,11,10,11,...,10. -/
def alt15 : List ℚ := [10, 11, 10, 11, 10, 11, 10, 11, 10, 11, 10, 11, 10, 11, 10]

/-- Counterexample for C2 as stated: a 15-bar series whose RSI at index 13 is
already non-null (value 700/13), refuting "null at exactly the first 14
positions (indices 0 through 13)". -/
theorem c2_counterexample :
    alt15.length = 15 ∧
    rsiAt alt15 13 = some (700 / 13) ∧
    rsiAt alt15 13 ≠ none := by
  have h : rsiAt alt15 13 = some (700 / 13) := by
    norm_num [rsiAt, rollingMean, windowSlice, gains, losses, deltas, alt15,
      List.range_succ]
  refine ⟨by norm_num [alt15], h, ?_⟩
  rw [h]
  simp

/-- Witness for C2 at the alternating series, index 13. -/
theorem c2_rsi_null_warmup_witness :
    13 < alt15.length ∧
    (rsiAt alt15 13 = none ↔
      rollingMean 14 (gains alt15) 13 = some 0 ∧
      rollingMean 14 (losses alt15) 13 = some 0) :=
  ⟨by norm_num [alt15],
   (c2_rsi_null_warmup alt15 13 (by norm_num [alt15])).2 (by norm_num)⟩

/-! Forecast tab, src/app.py lines 263-289:
if len(view_df1) > 10:
    X = 0..n-1; y = Close
    z = np.polyfit(X, y, 1); p = np.poly1d(z)
    future_X = np.arange(last_x, last_x + 30)        (last_x = n-1)
    future_dates = [last index date + i days for i in 1..30]
    plot (future_dates, p(future_X))
else: warning "Not enough data points for AI prediction."
-/

/-- Embedding of np.polyfit(X, y, 1) slope z[0] over x-coordinates 0..n-1:
for n ≥ 2 distinct abscissas the least-squares line is the unique solution
of the normal equations, slope = (n·Σxy − Σx·Σy) / (n·Σx² − (Σx)²). -/
def olsSlope (ys : List ℚ) : ℚ :=
  let n : ℚ := ys.length
  let sx : ℚ := ((List.range ys.length).map (fun i => (i : ℚ))).sum
  let sxx : ℚ := ((List.range ys.length).map (fun i => (i : ℚ) ^ 2)).sum
  let sy : ℚ := ys.sum
  let sxy : ℚ := ((List.range ys.length).map (fun (i : ℕ) => (i : ℚ) * ys.getD i 0)).sum
  (n * sxy - sx * sy) / (n * sxx - sx ^ 2)

/-- Embedding of np.polyfit(X, y, 1) intercept z[1]: from the first normal
equation, intercept = (Σy − slope·Σx) / n. -/
def olsIntercept (ys : List ℚ) : ℚ :=
  (ys.sum - olsSlope ys * ((List.range ys.length).map (fun i => (i : ℚ))).sum) /
    (ys.length : ℚ)

/-- Embedding of np.arange(a, b) on natural numbers: the integers a, a+1,
..., b-1. -/
def arange (a b : ℕ) : List ℕ :=
  (List.range (b - a)).map (fun j => a + j)

/-- Result of the forecast block: fitted line, future x-coordinates, future
dates (day numbers), and projected closes. -/
structure ForecastResult where
  slope : ℚ
  intercept : ℚ
  futureXs : List ℕ
  futureDates : List ℕ
  values : List ℚ
  deriving DecidableEq

/-- Embedding of the forecast block (src/app.py lines 266-280): guarded by
len(view_df1) > 10; fits the OLS line on x = 0..n-1, evaluates it on
future_X = arange(n-1, n-1+30), and pairs the values with the 30 calendar
days after the last known date.  The else branch (the warning) is none. -/
def tab4Forecast (lastDate : ℕ) (view : List ℚ) : Option ForecastResult :=
  if 10 < view.length then
    let n := view.length
    let m := olsSlope view
    let b := olsIntercept view
    let lastX := n - 1
    let futureX := arange lastX (lastX + 30)
    some { slope := m
           intercept := b
           futureXs := futureX
           futureDates := (List.range 30).map (fun i => lastDate + (i + 1))
           values := futureX.map (fun (x : ℕ) => m * (x : ℚ) + b) }
  else none

/-- C3 (amended): the forecast block produces a forecast exactly when the
view has at least 11 bars (the guard is len > 10, strict); at 10 bars or
fewer it emits the "Not enough data points" warning (none) instead. -/
theorem c3_forecast_guard (lastDate : ℕ) (view : List ℚ) :
    (tab4Forecast lastDate view).isSome = true ↔ 11 ≤ view.length := by
  simp only [tab4Forecast]
  by_cases h : 10 < view.length
  · rw [if_pos h]
    simp
    omega
  · rw [if_neg h]
    simp
    omega

/-- Counterexample for C3 as stated: a series of exactly 10 bars (at least
10, as the claim requires) gets the warning, not a forecast. -/
theorem c3_counterexample :
    ([1, 2, 3, 4, 5, 6, 7, 8, 9, 10] : List ℚ).length = 10 ∧
    tab4Forecast 0 [1, 2, 3, 4, 5, 6, 7, 8, 9, 10] = none := by
  constructor
  · norm_num
  · rfl

/-- C4 (amended): for every accepted series (more than 10 bars) the forecast
consists of 30 points obtained by evaluating the fitted line at the integer
x-coordinates n-1, n, ..., n+28 — starting at the last fitted index n-1, not
strictly beyond it — paired with the 30 calendar days after the last known
date. -/
theorem c4_forecast_points (lastDate : ℕ) (cs : List ℚ) (h : 10 < cs.length) :
    (tab4Forecast lastDate cs).map ForecastResult.futureXs =
      some ((List.range 30).map (fun k => cs.length - 1 + k)) ∧
    (tab4Forecast lastDate cs).map ForecastResult.values =
      some ((List.range 30).map
        (fun k => olsSlope cs * ((cs.length - 1 + k : ℕ) : ℚ) + olsIntercept cs)) ∧
    (tab4Forecast lastDate cs).map ForecastResult.futureDates =
      some ((List.range 30).map (fun k => lastDate + (k + 1))) := by
  have heq : tab4Forecast lastDate cs = some
      { slope := olsSlope cs
        intercept := olsIntercept cs
        futureXs := (List.range 30).map (fun k => cs.length - 1 + k)
        futureDates := (List.range 30).map (fun k => lastDate + (k + 1))
        values := (List.range 30).map
          (fun k => olsSlope cs * ((cs.length - 1 + k : ℕ) : ℚ) + olsIntercept cs) } := by
    have ha : arange (cs.length - 1) (cs.length - 1 + 30) =
        (List.range 30).map (fun k => cs.length - 1 + k) := by
      simp [arange]
    simp only [tab4Forecast, if_pos h]
    rw [ha, List.map_map]
    rfl
  refine ⟨?_, ?_, ?_⟩ <;> rw [heq] <;> rfl

/-- Linear 12-bar close series 0,1,...,11: the OLS fit recovers the line
y = x exactly. -/
def lin12 : List ℚ := [0, 1, 2, 3, 4, 5, 6, 7, 8, 9, 10, 11]

/-- Counterexample for C4 as stated: for the 12-bar series 0..11 the fitted
line is y = x, and the first forecast value is 11 = p(n-1), the value at the
last fitted index — not p(n) = 12 as the claim requires. -/
theorem c4_counterexample :
    (tab4Forecast 0 lin12).map (fun r => r.values.head?) = some (some 11) ∧
    olsSlope lin12 * ((lin12.length : ℚ)) + olsIntercept lin12 = 12 ∧
    (11 : ℚ) ≠ 12 := by
  refine ⟨?_, ?_, by norm_num⟩
  · norm_num [tab4Forecast, olsSlope, olsIntercept, arange, lin12, List.range_succ]
  · norm_num [olsSlope, olsIntercept, lin12, List.range_succ]

/-- Flat 12-bar close series used as the C4 witness input. -/
def flat12 : List ℚ := List.replicate 12 10

/-- Witness for C4 at the flat 12-bar series. -/
theorem c4_forecast_points_witness :
    10 < flat12.length ∧
    (tab4Forecast 7 flat12).map ForecastResult.futureXs =
      some ((List.range 30).map (fun k => flat12.length - 1 + k)) ∧
    (tab4Forecast 7 flat12).map ForecastResult.values =
      some ((List.range 30).map
        (fun k => olsSlope flat12 * ((flat12.length - 1 + k : ℕ) : ℚ) +
          olsIntercept flat12)) ∧
    (tab4Forecast 7 flat12).map ForecastResult.futureDates =
      some ((List.range 30).map (fun k => 7 + (k + 1))) :=
  ⟨by norm_num [flat12],
   (c4_forecast_points 7 flat12 (by norm_num [flat12])).1,
   (c4_forecast_points 7 flat12 (by norm_num [flat12])).2.1,
   (c4_forecast_points 7 flat12 (by norm_num [flat12])).2.2⟩

/-! Metrics block, src/app.py lines 141-146:
curr_price = float(view_df1.Close.iloc[-1])
prev_price = float(view_df1.Close.iloc[-2])
delta = curr_price - prev_price
pct_change = view_df1.Close.pct_change()
volatility = float(pct_change.std() * 100 * (252**0.5)) if len(view_df1) > 1 else 0.0
-/

/-- Embedding of Series.pct_change() with the leading NaN dropped: pandas
pct_change yields NaN at position 0 and x[i]/x[i-1] - 1 afterwards, and
Series.std() skips NaN entries, so only the defined returns are kept. -/
def pctChange (xs : List ℚ) : List ℚ :=
  (List.range (xs.length - 1)).map (fun i => xs.getD (i + 1) 0 / xs.getD i 0 - 1)

/-- Embedding of Series.std() as a variance: the sample variance with ddof=1.
Pandas returns NaN (none) when fewer than two observations are present. -/
def sampleVar (xs : List ℚ) : Option ℚ :=
  if 2 ≤ xs.length then
    some ((xs.map (fun x => (x - xs.sum / (xs.length : ℚ)) ^ 2)).sum /
      ((xs.length : ℚ) - 1))
  else none

/-- Embedding of the volatility expression (src/app.py line 146):
pct_change.std() * 100 * sqrt 252 when the view has more than one bar,
literal 0.0 otherwise; a NaN standard deviation propagates (none). -/
noncomputable def annualizedVolatility (view : List ℚ) : Option ℝ :=
  if 1 < view.length then
    (sampleVar (pctChange view)).map
      (fun v => Real.sqrt (v : ℝ) * 100 * Real.sqrt 252)
  else some 0

/-- Embedding of Series.iloc[-k] (k ≥ 1): the k-th element from the end, an
IndexError (none) when the series is shorter than k. -/
def ilocNeg (xs : List ℚ) (k : ℕ) : Option ℚ :=
  if k ≤ xs.length ∧ 0 < k then some (xs.getD (xs.length - k) 0) else none

/-- Output of the metrics block. -/
structure MetricsOut where
  currPrice : ℚ
  prevPrice : ℚ
  priceDelta : ℚ
  volatility : Option ℝ

/-- Embedding of the metrics block, src/app.py lines 141-146.  The block is
executed inside the single page-wide try/except (lines 133 and 291-292): an
IndexError from iloc[-1] or iloc[-2] aborts the whole block, so the result is
none (the page renders only the error message) whenever the view has fewer
than two bars. -/
noncomputable def metricsBlock (view : List ℚ) : Option MetricsOut :=
  match ilocNeg view 1, ilocNeg view 2 with
  | some curr, some prev =>
      some { currPrice := curr
             prevPrice := prev
             priceDelta := curr - prev
             volatility := annualizedVolatility view }
  | _, _ => none

/-- C6: on a single-bar view window the volatility guard (len > 1, else 0.0)
would report 0, but the block never reaches it: prev_price = iloc[-2] raises
IndexError two lines earlier, the page-wide except catches it, and the whole
page degrades to an error — not the per-computation degradation the claim
requires. -/
theorem c6_single_bar_whole_page_failure :
    metricsBlock [10] = none ∧ annualizedVolatility [10] = some 0 := by
  constructor
  · rfl
  · rfl

/-- C9: annualized volatility is invariant under scaling the whole price
series by a positive constant, since it is a function of the percentage
returns only. -/
theorem c9_volatility_scale_invariant (view : List ℚ) (c : ℚ)
    (h2 : 2 ≤ view.length) (hc : 0 < c) (hpos : ∀ x ∈ view, 0 < x) :
    annualizedVolatility (view.map (fun x => c * x)) = annualizedVolatility view := by
  have hpct : pctChange (view.map (fun x => c * x)) = pctChange view := by
    simp only [pctChange, List.length_map]
    apply List.map_congr_left
    intro i hi
    have hi1 : i + 1 < view.length := by
      simp only [List.mem_range] at hi
      omega
    have hi0 : i < view.length := by omega
    have hmap : ∀ j (hj : j < view.length),
        (view.map (fun x => c * x)).getD j 0 = c * view.getD j 0 := by
      intro j hj
      rw [List.getD_eq_getElem _ _ (by simpa using hj), List.getD_eq_getElem _ _ hj]
      simp
    rw [hmap (i + 1) hi1, hmap i hi0]
    have hvi : view.getD i 0 ≠ 0 := by
      rw [List.getD_eq_getElem _ _ hi0]
      exact ne_of_gt (hpos _ (List.getElem_mem hi0))
    rw [mul_div_mul_left _ _ (ne_of_gt hc)]
  simp only [annualizedVolatility, List.length_map, hpct]

/-- Witness for C9 at the two-bar series [1, 2] scaled by 3. -/
theorem c9_volatility_scale_invariant_witness :
    2 ≤ ([1, 2] : List ℚ).length ∧ (0 : ℚ) < 3 ∧
    (∀ x ∈ ([1, 2] : List ℚ), 0 < x) ∧
    annualizedVolatility (([1, 2] : List ℚ).map (fun x => 3 * x)) =
      annualizedVolatility [1, 2] :=
  ⟨by norm_num, by norm_num, by norm_num,
   c9_volatility_scale_invariant [1, 2] 3 (by norm_num) (by norm_num) (by norm_num)⟩

/-! Comparison tab, src/app.py lines 238-257:
common_idx = df1.index.intersection(raw_df2.index)
common_idx = common_idx[common_idx >= view_start1]
base1 = df1.loc[common_idx[0], "Close"]; base2 = raw_df2.loc[common_idx[0], "Close"]
norm1 = (df1.loc[common_idx, "Close"] / base1 - 1) * 100
norm2 = (raw_df2.loc[common_idx, "Close"] / base2 - 1) * 100
corr = df1.loc[common_idx, "Close"].corr(raw_df2.loc[common_idx, "Close"])
A series is a list of (date, close) rows; dates are natural day numbers.
-/

/-- Dates (the index) of a series. -/
def seriesDates (s : List (ℕ × ℚ)) : List ℕ :=
  s.map Prod.fst

/-- Embedding of df.loc[d, "Close"]: the close of the first row keyed d.  The
data-model invariant (unique dates) makes the lookup unambiguous. -/
def closeAt (s : List (ℕ × ℚ)) (d : ℕ) : ℚ :=
  ((s.find? (fun r => r.1 = d)).map Prod.snd).getD 0

/-- Embedding of df1.index.intersection(raw_df2.index) followed by the
common_idx >= view_start1 filter.  For the monotone unique date indexes of
the data model, pandas intersection is the subsequence of df1.index whose
dates also occur in raw_df2.index. -/
def tab3CommonIdx (s1 s2 : List (ℕ × ℚ)) (viewStart : ℕ) : List ℕ :=
  ((seriesDates s1).filter (fun d => decide (d ∈ seriesDates s2))).filter
    (fun d => decide (viewStart ≤ d))

/-- Embedding of the normalized-performance block (src/app.py lines 243-247):
none models the "No overlapping data found" warning branch. -/
def tab3Comparison (s1 s2 : List (ℕ × ℚ)) (viewStart : ℕ) :
    Option (List ℚ × List ℚ) :=
  let common := tab3CommonIdx s1 s2 viewStart
  if common.isEmpty then none
  else
    let base1 := closeAt s1 (common.headD 0)
    let base2 := closeAt s2 (common.headD 0)
    some (common.map (fun d => (closeAt s1 d / base1 - 1) * 100),
          common.map (fun d => (closeAt s2 d / base2 - 1) * 100))

lemma closeAt_pos {s : List (ℕ × ℚ)} {d : ℕ}
    (hd : d ∈ seriesDates s) (hpos : ∀ r ∈ s, 0 < r.2) : 0 < closeAt s d := by
  simp only [seriesDates, List.mem_map] at hd
  obtain ⟨r, hr, hrd⟩ := hd
  have hfind : (s.find? (fun r => r.1 = d)).isSome := by
    rw [List.find?_isSome]
    exact ⟨r, hr, by simp [hrd]⟩
  obtain ⟨r', hr'⟩ := Option.isSome_iff_exists.mp hfind
  have hmem : r' ∈ s := List.mem_of_find?_eq_some hr'
  simp only [closeAt, hr', Option.map_some', Option.getD_some]
  exact hpos r' hmem

/-- C7: whenever the comparison block runs (at least one common date in the
view window) and the series have positive closes, both normalized return
curves are exactly 0 at the first common date, which is the shared baseline. -/
theorem c7_normalized_zero_at_first_common (s1 s2 : List (ℕ × ℚ)) (viewStart : ℕ)
    (hne : tab3CommonIdx s1 s2 viewStart ≠ [])
    (hpos1 : ∀ r ∈ s1, 0 < r.2) (hpos2 : ∀ r ∈ s2, 0 < r.2) :
    (tab3Comparison s1 s2 viewStart).map
      (fun p => (p.1.head?, p.2.head?)) = some (some 0, some 0) := by
  obtain ⟨d0, rest, hcommon⟩ := List.exists_cons_of_ne_nil hne
  have hd1 : d0 ∈ seriesDates s1 := by
    have : d0 ∈ tab3CommonIdx s1 s2 viewStart := by
      rw [hcommon]
      exact List.mem_cons_self d0 rest
    simp only [tab3CommonIdx, List.mem_filter] at this
    exact this.1.1
  have hd2 : d0 ∈ seriesDates s2 := by
    have : d0 ∈ tab3CommonIdx s1 s2 viewStart := by
      rw [hcommon]
      exact List.mem_cons_self d0 rest
    simp only [tab3CommonIdx, List.mem_filter] at this
    have h' := this.1.2
    simpa using h'
  have hb1 : closeAt s1 d0 ≠ 0 := ne_of_gt (closeAt_pos hd1 hpos1)
  have hb2 : closeAt s2 d0 ≠ 0 := ne_of_gt (closeAt_pos hd2 hpos2)
  simp only [tab3Comparison, hcommon, List.isEmpty_cons, if_neg Bool.false_ne_true,
    List.headD_cons, List.map_cons, List.head?_cons, Option.map_some']
  rw [div_self hb1, div_self hb2]
  norm_num

/-- Witness for C7: series 1 has dates 1, 2; series 2 has date 2; the single
common date on or after view start 0 is 2, and both curves start at 0. -/
theorem c7_normalized_zero_at_first_common_witness :
    tab3CommonIdx [(1, 10), (2, 12)] [(2, 5)] 0 ≠ [] ∧
    (∀ r ∈ ([(1, 10), (2, 12)] : List (ℕ × ℚ)), 0 < r.2) ∧
    (∀ r ∈ ([(2, 5)] : List (ℕ × ℚ)), 0 < r.2) ∧
    (tab3Comparison [(1, 10), (2, 12)] [(2, 5)] 0).map
      (fun p => (p.1.head?, p.2.head?)) = some (some 0, some 0) :=
  ⟨by norm_num [tab3CommonIdx, seriesDates], by norm_num, by norm_num,
   c7_normalized_zero_at_first_common [(1, 10), (2, 12)] [(2, 5)] 0
     (by norm_num [tab3CommonIdx, seriesDates]) (by norm_num) (by norm_num)⟩

/-- Pearson correlation coefficient of two equal-length sequences, the
default method of pandas Series.corr: the centered cross-product sum divided
by the product of the root centered square sums. -/
noncomputable def pearson (xs ys : List ℚ) : ℝ :=
  let mx : ℚ := xs.sum / (xs.length : ℚ)
  let my : ℚ := ys.sum / (ys.length : ℚ)
  let cov : ℚ := ((xs.zip ys).map (fun p => (p.1 - mx) * (p.2 - my))).sum
  let vx : ℚ := (xs.map (fun x => (x - mx) ^ 2)).sum
  let vy : ℚ := (ys.map (fun y => (y - my) ^ 2)).sum
  (cov : ℝ) / (Real.sqrt (vx : ℝ) * Real.sqrt (vy : ℝ))

/-- Embedding of the correlation line (src/app.py line 255): Pearson
correlation of the two raw close sequences taken at the common dates. -/
noncomputable def tab3Corr (s1 s2 : List (ℕ × ℚ)) (viewStart : ℕ) : ℝ :=
  pearson ((tab3CommonIdx s1 s2 viewStart).map (closeAt s1))
    ((tab3CommonIdx s1 s2 viewStart).map (closeAt s2))

/-- Spec-side definition, following the words of the spec (section 4.4):
commonDates is the ascending ordering of the dates present in both series and
on or after the view-window start. -/
def specCommonDates (s1 s2 : List (ℕ × ℚ)) (viewStart : ℕ) : List ℕ :=
  List.insertionSort (fun a b => a ≤ b)
    ((seriesDates s1).filter
      (fun d => decide (d ∈ seriesDates s2) && decide (viewStart ≤ d)))

/-- Spec-side definition: the Pearson correlation of the two raw
(non-normalized) close-price sequences restricted to commonDates. -/
noncomputable def specCorrelation (s1 s2 : List (ℕ × ℚ)) (viewStart : ℕ) : ℝ :=
  pearson ((specCommonDates s1 s2 viewStart).map (closeAt s1))
    ((specCommonDates s1 s2 viewStart).map (closeAt s2))

lemma tab3CommonIdx_eq_specCommonDates (s1 s2 : List (ℕ × ℚ)) (viewStart : ℕ)
    (hsorted : List.Sorted (· < ·) (seriesDates s1)) :
    tab3CommonIdx s1 s2 viewStart = specCommonDates s1 s2 viewStart := by
  have hpred : tab3CommonIdx s1 s2 viewStart =
      (seriesDates s1).filter
        (fun d => decide (d ∈ seriesDates s2) && decide (viewStart ≤ d)) := by
    rw [tab3CommonIdx, List.filter_filter]
    apply List.filter_congr
    intro d _
    exact Bool.and_comm _ _
  have hsle : List.Sorted (fun a b => a ≤ b)
      ((seriesDates s1).filter
        (fun d => decide (d ∈ seriesDates s2) && decide (viewStart ≤ d))) := by
    have := hsorted.filter
      (fun d => decide (d ∈ seriesDates s2) && decide (viewStart ≤ d))
    exact this.imp (fun h => le_of_lt h)
  rw [hpred, specCommonDates]
  exact (List.eq_of_perm_of_sorted (List.perm_insertionSort _ _)
    (List.sorted_insertionSort _ _) hsle).symm

/-- C8: the displayed correlation coefficient is the Pearson correlation of
the two raw close-price sequences restricted to the common dates on or after
the view-window start, in ascending order (raw prices, not returns). -/
theorem c8_correlation_raw_prices (s1 s2 : List (ℕ × ℚ)) (viewStart : ℕ)
    (hsorted : List.Sorted (· < ·) (seriesDates s1)) :
    tab3Corr s1 s2 viewStart = specCorrelation s1 s2 viewStart := by
  rw [tab3Corr, specCorrelation,
    tab3CommonIdx_eq_specCommonDates s1 s2 viewStart hsorted]

/-- Witness for C8 at two concrete overlapping series. -/
theorem c8_correlation_raw_prices_witness :
    List.Sorted (· < ·) (seriesDates [(1, 10), (2, 12), (3, 11)]) ∧
    tab3Corr [(1, 10), (2, 12), (3, 11)] [(2, 5), (3, 6)] 2 =
      specCorrelation [(1, 10), (2, 12), (3, 11)] [(2, 5), (3, 6)] 2 :=
  ⟨by norm_num [seriesDates],
   c8_correlation_raw_prices [(1, 10), (2, 12), (3, 11)] [(2, 5), (3, 6)] 2
     (by norm_num [seriesDates])⟩

/-! calculate_metrics, src/app.py lines 104-121.  The function assigns new
columns into its argument df with df[...] = ..., a pandas in-place mutation,
and then returns the very same object, so after df1 = calculate_metrics(raw_df1)
(line 134) the caller's raw_df1 aliases df1 and carries the new columns. -/

/-- Embedding of Series.rolling(window=w).std() as a variance (ddof = 1,
the pandas default): none until the window is full. -/
def rollingVar (w : ℕ) (xs : List ℚ) (i : ℕ) : Option ℚ :=
  if w ≤ i + 1 ∧ i < xs.length then
    some (((windowSlice w xs i).map
      (fun x => (x - (windowSlice w xs i).sum / (w : ℚ)) ^ 2)).sum / ((w : ℚ) - 1))
  else none

/-- A price frame: the OHLCV base columns plus the named columns appended by
calculate_metrics (held as real-valued nullable columns, since the Bollinger
bands involve a square root). -/
structure Frame where
  Open : List ℚ
  High : List ℚ
  Low : List ℚ
  Close : List ℚ
  Volume : List ℕ
  extra : List (String × List (Option ℝ))

/-- Lift a nullable rational column to a nullable real column. -/
def toRCol (c : List (Option ℚ)) : List (Option ℝ) :=
  c.map (Option.map (fun (q : ℚ) => (q : ℝ)))

/-- SMA column over the whole frame (df.Close.rolling(window=w).mean()). -/
def smaCol (w : ℕ) (closes : List ℚ) : List (Option ℚ) :=
  (List.range closes.length).map (rollingMean w closes)

/-- RSI column over the whole frame (src/app.py lines 115-119). -/
def rsiCol (closes : List ℚ) : List (Option ℚ) :=
  (List.range closes.length).map (rsiAt closes)

/-- Upper Bollinger band column: sma20 + std20 * 2 (src/app.py line 112). -/
noncomputable def bbUpperCol (closes : List ℚ) : List (Option ℝ) :=
  (List.range closes.length).map (fun i =>
    match rollingMean 20 closes i, rollingVar 20 closes i with
    | some m, some v => some ((m : ℝ) + Real.sqrt (v : ℝ) * 2)
    | _, _ => none)

/-- Lower Bollinger band column: sma20 - std20 * 2 (src/app.py line 113). -/
noncomputable def bbLowerCol (closes : List ℚ) : List (Option ℝ) :=
  (List.range closes.length).map (fun i =>
    match rollingMean 20 closes i, rollingVar 20 closes i with
    | some m, some v => some ((m : ℝ) - Real.sqrt (v : ℝ) * 2)
    | _, _ => none)

/-- Embedding of calculate_metrics (src/app.py lines 104-121): below two rows
the frame is returned untouched; otherwise the five indicator columns are
assigned into the frame, in source order. -/
noncomputable def calculate_metrics (f : Frame) : Frame :=
  if f.Close.length < 2 then f
  else
    { f with extra := f.extra ++
        [("SMA_50", toRCol (smaCol 50 f.Close)),
         ("SMA_200", toRCol (smaCol 200 f.Close)),
         ("BB_Upper", bbUpperCol f.Close),
         ("BB_Lower", bbLowerCol f.Close),
         ("RSI", toRCol (rsiCol f.Close))] }

/-- Python call semantics of df1 = calculate_metrics(raw_df1) (line 134): the
column assignments mutate the argument in place and the function returns the
same object, so the call yields (post-state of the argument, returned frame),
and the two components are one and the same frame. -/
noncomputable def calculate_metrics_call (f : Frame) : Frame × Frame :=
  (calculate_metrics f, calculate_metrics f)

/-- Two-bar frame with no indicator columns, as fetched. -/
noncomputable def rawFrame2 : Frame :=
  { Open := [1, 2], High := [1, 2], Low := [1, 2], Close := [1, 2]
    Volume := [3, 4], extra := [] }

/-- Counterexample for C10 as stated: after the call, the caller's frame is
not the frame it passed in — five indicator columns have appeared in it. -/
theorem c10_counterexample : (calculate_metrics_call rawFrame2).1 ≠ rawFrame2 := by
  intro h
  have hlen : ((calculate_metrics_call rawFrame2).1).extra.length = 5 := rfl
  rw [h] at hlen
  have : (0 : ℕ) = 5 := by
    rw [← hlen]
    rfl
  omega

/-- C10 (amended): calculate_metrics mutates its input in place: the caller's
frame after the call is the returned frame itself; its OHLCV columns and
values are unchanged, and the five indicator columns SMA_50, SMA_200,
BB_Upper, BB_Lower, RSI are appended (none when the frame has fewer than two
rows). -/
theorem c10_calculate_metrics_mutates (f : Frame) :
    (calculate_metrics_call f).1 = (calculate_metrics_call f).2 ∧
    (calculate_metrics_call f).1.Open = f.Open ∧
    (calculate_metrics_call f).1.High = f.High ∧
    (calculate_metrics_call f).1.Low = f.Low ∧
    (calculate_metrics_call f).1.Close = f.Close ∧
    (calculate_metrics_call f).1.Volume = f.Volume ∧
    (calculate_metrics_call f).1.extra.map Prod.fst =
      f.extra.map Prod.fst ++
        (if f.Close.length < 2 then []
         else ["SMA_50", "SMA_200", "BB_Upper", "BB_Lower", "RSI"]) := by
  by_cases h2 : f.Close.length < 2
  · simp [calculate_metrics_call, calculate_metrics, if_pos h2]
  · simp [calculate_metrics_call, calculate_metrics, if_neg h2]

end TradeView
